import Mathlib

/-!
Verification development for the TakeAwayPlatform REST server
(`src/http/rest_server.cpp`, plus the longer revision of the same file).

The concurrency core is embedded shallowly:

* the Database Lease Pool (`dbPool`, a `std::queue` of `DatabaseHandler`
  pointers guarded by `dbPoolMutex`) becomes a `PoolState` whose idle queue
  is a `List Nat` of handle identities, with a fresh-identity counter
  standing for `create_db_handler` constructing a brand-new handler;
* the lifecycle controller (`start` / `stop` / `is_running`) becomes a pure
  transition function on a `ServerState` record that also emits the ordered
  list of externally visible actions (joins, detaches, log lines, the pool
  drain) the C++ performs, so that ordering claims about the stop sequence
  can be stated as facts about the emitted trace;
* the lock discipline of `acquire_db_handler` / `release_db_handler` becomes
  an explicit step trace (`lock`, `pop`, `construct`, `unlock`, ...) taken
  verbatim from the scope of the `std::lock_guard`;
* each route registered in `setup_routes` is recorded with how its callback
  dispatches work (whether it enqueues to the thread pool, whether it blocks
  on a future for the result, whether the work touches the database);
* `generate_uuid` and `generate_short_id` become functions of the random
  draws, modelled as a stream of bounded numbers exactly as produced by the
  `uniform_int_distribution` in the source.
-/

namespace TakeAwayPlatform

/-! ## Database Lease Pool

`rest_server.cpp` lines 139-184: `init_db_pool`, `create_db_handler`,
`acquire_db_handler`, `release_db_handler`.  Handles are identified by the
order of their construction; `nextId` is the identity the next call to
`create_db_handler` hands out. -/

/-- State of the pool: `idle` is the `std::queue<std::unique_ptr<DatabaseHandler>> dbPool`
(front of the queue at the head of the list), `nextId` identifies the next
handler `create_db_handler` would construct. -/
structure PoolState where
  idle : List Nat
  nextId : Nat
  deriving Repr, DecidableEq

/-- `RestServer::create_db_handler`: `std::make_unique<DatabaseHandler>(dbConfig[0])`
constructs a brand-new handler (a fresh identity in the model). -/
def create_db_handler (s : PoolState) : Nat × PoolState :=
  (s.nextId, { s with nextId := s.nextId + 1 })

/-- `RestServer::acquire_db_handler`: under `dbPoolMutex`, if `dbPool` is
empty return `create_db_handler()`; otherwise move out `dbPool.front()`,
`pop` it, and return it. -/
def acquire_db_handler (s : PoolState) : Nat × PoolState :=
  match s.idle with
  | [] => create_db_handler s
  | h :: t => (h, { s with idle := t })

/-- `RestServer::release_db_handler`: under `dbPoolMutex`, unconditionally
`dbPool.push(std::move(handler))` (push at the back of the queue). -/
def release_db_handler (s : PoolState) (h : Nat) : PoolState :=
  { s with idle := s.idle ++ [h] }

/-- `RestServer::init_db_pool`: starting from an empty pool, loop
`pool_size` times pushing `create_db_handler()` onto `dbPool`. -/
def init_db_pool (pool_size : Nat) : PoolState :=
  (List.range pool_size).foldl
    (fun s _ =>
      let hs := create_db_handler s
      { hs.2 with idle := hs.2.idle ++ [hs.1] })
    { idle := [], nextId := 0 }

/-! ## Leases: the pool together with the handles checked out by in-flight
work items.  `acquire_db_handler` hands the handle to exactly the work item
that called it, and `release_db_handler` takes it back; `checkedOut` records
the handles currently held by work items. -/

/-- The pool plus the multiset of handles currently held by in-flight
work items. -/
structure LeaseState where
  pool : PoolState
  checkedOut : List Nat
  deriving Repr, DecidableEq

/-- A work item acquiring a handle: `acquire_db_handler` on the pool, the
returned handle becomes checked out. -/
def leaseAcquire (s : LeaseState) : LeaseState :=
  let hp := acquire_db_handler s.pool
  { pool := hp.2, checkedOut := hp.1 :: s.checkedOut }

/-- A work item releasing the handle `h` it holds: `release_db_handler`
returns it to the idle queue and it stops being checked out. -/
def leaseRelease (s : LeaseState) (h : Nat) : LeaseState :=
  { pool := release_db_handler s.pool h, checkedOut := s.checkedOut.erase h }

/-- `count(idle) + count(checked-out)`. -/
def leaseCount (s : LeaseState) : Nat :=
  s.pool.idle.length + s.checkedOut.length

/-- The handle-partition invariant: no handle appears twice across the idle
queue and the checked-out set (so a handle is idle or held by exactly one
task, never both), and every live handle identity was actually constructed. -/
def LeaseInv (s : LeaseState) : Prop :=
  (s.pool.idle ++ s.checkedOut).Nodup ∧
    ∀ h ∈ s.pool.idle ++ s.checkedOut, h < s.pool.nextId

instance (s : LeaseState) : Decidable (LeaseInv s) := by
  unfold LeaseInv; infer_instance

/-- C5: for every call to `acquire_db_handler`: when the idle queue is
non-empty it returns the front idle handle, removing it from the queue and
constructing nothing; when the idle queue is empty it synchronously
constructs and returns a new handle (`create_db_handler`).  The function is
total — it never blocks waiting for pool capacity. -/
theorem acquire_db_handler_spec (s : PoolState) :
    (∀ h t, s.idle = h :: t →
      (acquire_db_handler s).1 = h ∧
      (acquire_db_handler s).1 ∈ s.idle ∧
      (acquire_db_handler s).2 = { s with idle := t }) ∧
    (s.idle = [] →
      acquire_db_handler s = create_db_handler s ∧
      (acquire_db_handler s).1 = s.nextId ∧
      (acquire_db_handler s).2 = { s with nextId := s.nextId + 1 }) := by
  constructor
  · intro h t hidle
    simp [acquire_db_handler, hidle]
  · intro hidle
    simp [acquire_db_handler, create_db_handler, hidle]

/-- C5 witness: the specification evaluated on the concrete pool with idle
queue `[7, 9]`. -/
theorem acquire_db_handler_spec_witness :
    (acquire_db_handler { idle := [7, 9], nextId := 10 }).1 = 7 ∧
    (acquire_db_handler { idle := [7, 9], nextId := 10 }).1 ∈ [7, 9] ∧
    (acquire_db_handler { idle := [7, 9], nextId := 10 }).2 =
      { idle := [9], nextId := 10 } := by
  exact (acquire_db_handler_spec { idle := [7, 9], nextId := 10 }).1 7 [9] rfl

/-- C6 counterexample: the claimed conservation law fails between pool
construction and drain.  From a freshly constructed pool of warm size 1,
the sequence of two acquires raises `count(idle) + count(checked-out)`
from 1 to 2, because the second acquire finds the idle queue empty and
constructs a new handle on demand. -/
theorem lease_count_not_constant_cex :
    leaseCount { pool := init_db_pool 1, checkedOut := [] } = 1 ∧
    leaseCount (leaseAcquire (leaseAcquire
      { pool := init_db_pool 1, checkedOut := [] })) = 2 := by
  constructor <;> rfl

/-- C6 (amended): release unconditionally returns the handle to the idle
queue and preserves `count(idle) + count(checked-out)`; acquire preserves
the count when an idle handle exists, and increases it by exactly one when
the idle queue is empty (on-demand growth — the count is non-decreasing, not
constant); and both operations preserve the partition invariant that every
handle is in the idle queue or held by exactly one in-flight task, never
both. -/
theorem lease_conservation_amended (s : LeaseState) (h : Nat) :
    (s.pool.idle ≠ [] → leaseCount (leaseAcquire s) = leaseCount s) ∧
    (s.pool.idle = [] → leaseCount (leaseAcquire s) = leaseCount s + 1) ∧
    (h ∈ s.checkedOut → leaseCount (leaseRelease s h) = leaseCount s) ∧
    (LeaseInv s → LeaseInv (leaseAcquire s)) ∧
    (LeaseInv s → h ∈ s.checkedOut → LeaseInv (leaseRelease s h)) := by
  refine ⟨?_, ?_, ?_, ?_, ?_⟩
  · intro hne
    cases hs : s.pool.idle with
    | nil => exact absurd hs hne
    | cons a t =>
        simp [leaseCount, leaseAcquire, acquire_db_handler, hs]
        omega
  · intro hs
    simp [leaseCount, leaseAcquire, acquire_db_handler, create_db_handler, hs]
  · intro hmem
    have hpos : 0 < s.checkedOut.length :=
      List.length_pos.mpr (List.ne_nil_of_mem hmem)
    simp [leaseCount, leaseRelease, release_db_handler,
      List.length_erase_of_mem hmem]
    omega
  · rintro ⟨hnd, hbound⟩
    cases hs : s.pool.idle with
    | nil =>
        refine ⟨?_, ?_⟩
        · simp only [leaseAcquire, acquire_db_handler, create_db_handler, hs]
          simp only [List.nil_append, List.nodup_cons]
          refine ⟨fun hmem => ?_, ?_⟩
          · have := hbound s.pool.nextId (by simp [hs]; exact hmem)
            omega
          · have := hnd
            simpa [hs] using this
        · intro x hx
          simp only [leaseAcquire, acquire_db_handler, create_db_handler, hs] at hx ⊢
          simp only [List.nil_append, List.mem_cons] at hx
          rcases hx with rfl | hx
          · omega
          · have := hbound x (by simp [hs]; exact hx)
            omega
    | cons a t =>
        have hperm : List.Perm (s.pool.idle ++ s.checkedOut)
            (t ++ a :: s.checkedOut) := by
          rw [hs]
          exact (List.perm_middle).symm
        refine ⟨?_, ?_⟩
        · have := hperm.nodup hnd
          simpa [leaseAcquire, acquire_db_handler, hs] using this
        · intro x hx
          have hx2 : x ∈ s.pool.idle ++ s.checkedOut := by
            apply hperm.mem_iff.mpr
            simpa [leaseAcquire, acquire_db_handler, hs] using hx
          have := hbound x hx2
          simpa [leaseAcquire, acquire_db_handler, hs] using this
  · rintro ⟨hnd, hbound⟩ hmem
    have hperm : List.Perm (s.pool.idle ++ s.checkedOut)
        ((s.pool.idle ++ [h]) ++ s.checkedOut.erase h) := by
      have h1 : List.Perm s.checkedOut (h :: s.checkedOut.erase h) :=
        List.perm_cons_erase hmem
      have h2 : List.Perm (s.pool.idle ++ s.checkedOut)
          (s.pool.idle ++ (h :: s.checkedOut.erase h)) := h1.append_left _
      have h3 : s.pool.idle ++ (h :: s.checkedOut.erase h) =
          (s.pool.idle ++ [h]) ++ s.checkedOut.erase h := by
        simp [List.append_assoc]
      rw [h3] at h2
      exact h2
    refine ⟨?_, ?_⟩
    · have := hperm.nodup hnd
      simpa [leaseRelease, release_db_handler] using this
    · intro x hx
      have hx2 : x ∈ s.pool.idle ++ s.checkedOut := by
        apply hperm.mem_iff.mpr
        simpa [leaseRelease, release_db_handler] using hx
      have := hbound x hx2
      simpa [leaseRelease, release_db_handler] using this

/-- C6 witness: the amended conservation statement evaluated on concrete
lease states, with every hypothesis discharged concretely. -/
theorem lease_conservation_amended_witness :
    (([0] : List Nat) ≠ []) ∧
    leaseCount (leaseAcquire ⟨⟨[0], 1⟩, []⟩) = leaseCount ⟨⟨[0], 1⟩, []⟩ ∧
    leaseCount (leaseAcquire ⟨⟨[], 1⟩, [0]⟩) =
      leaseCount ⟨⟨[], 1⟩, [0]⟩ + 1 ∧
    leaseCount (leaseRelease ⟨⟨[0], 2⟩, [1]⟩ 1) =
      leaseCount ⟨⟨[0], 2⟩, [1]⟩ ∧
    LeaseInv (leaseAcquire ⟨⟨[0], 1⟩, []⟩) ∧
    LeaseInv (leaseRelease ⟨⟨[0], 2⟩, [1]⟩ 1) := by
  refine ⟨by decide, ?_, ?_, ?_, ?_, ?_⟩
  · exact (lease_conservation_amended ⟨⟨[0], 1⟩, []⟩ 0).1 (by decide)
  · exact (lease_conservation_amended ⟨⟨[], 1⟩, [0]⟩ 0).2.1 rfl
  · exact (lease_conservation_amended ⟨⟨[0], 2⟩, [1]⟩ 1).2.2.1 (by decide)
  · exact (lease_conservation_amended ⟨⟨[0], 1⟩, []⟩ 0).2.2.2.1 (by decide)
  · exact (lease_conservation_amended ⟨⟨[0], 2⟩, [1]⟩ 1).2.2.2.2
      (by decide) (by decide)

/-! ## Service lifecycle controller

`rest_server.cpp` lines 36-137: `start`, `run_server`, `stop`, `is_running`.
The transition functions return, besides the successor state, the ordered
list of externally visible actions the C++ performs, so ordering claims
about the stop sequence become facts about the emitted trace.  The
condition-variable wait in `stop` (`stopCv.wait_for(lock, 5s, !isRunning)`)
is modelled by the boolean parameter `listenerConfirms`: `true` means the
listener thread reported exit (setting `isRunning = false` at the end of
`run_server`) within the 5-second window, `false` means the wait timed out. -/

/-- Externally visible actions of `start` and `stop`.  `workerShutdown`
(a `shutdown()` request to the thread pool) is listed so its absence from
every emitted trace can be stated; no line of `rest_server.cpp` emits it. -/
inductive ServerEvent where
  | logAlreadyStopped
  | setStopRequested
  | listenerStop
  | waitForListener
  | joinListener
  | logStopped
  | logTimeoutWarning
  | detachListener
  | drainPool
  | workerShutdown
  | logAlreadyRunning
  | spawnListener
  | logStarting
  deriving Repr, DecidableEq

/-- Controller state: the `isRunning` and `stopRequested` flags, the idle
database pool `dbPool` (drained by `stop`), and whether `serverThread` is
joinable. -/
structure ServerState where
  isRunning : Bool
  stopRequested : Bool
  dbPool : List Nat
  threadJoinable : Bool
  deriving Repr, DecidableEq

/-- `RestServer::is_running`: returns the `isRunning` flag. -/
def is_running (s : ServerState) : Bool :=
  s.isRunning

/-- `RestServer::start`: if already running, log the conflict and return;
otherwise set `isRunning`, clear `stopRequested`, and spawn the listener
thread. -/
def start (s : ServerState) : List ServerEvent × ServerState :=
  if s.isRunning then
    ([.logAlreadyRunning], s)
  else
    ([.spawnListener, .logStarting],
     { s with isRunning := true, stopRequested := false, threadJoinable := true })

/-- `RestServer::stop`: if not running, log and return unchanged.  Otherwise
set `stopRequested`, call `server.stop()`, and wait up to 5 seconds for the
listener to confirm exit.  On confirmation (the listener itself has set
`isRunning = false` in `run_server`), join the listener thread; on timeout,
log a warning and detach it.  Either way, finish by draining `dbPool`. -/
def stop (listenerConfirms : Bool) (s : ServerState) : List ServerEvent × ServerState :=
  if !s.isRunning then
    ([.logAlreadyStopped], s)
  else if listenerConfirms then
    ([.setStopRequested, .listenerStop, .waitForListener] ++
       (if s.threadJoinable then [.joinListener] else []) ++
       [.logStopped, .drainPool],
     { isRunning := false, stopRequested := true, dbPool := [],
       threadJoinable := false })
  else
    ([.setStopRequested, .listenerStop, .waitForListener, .logTimeoutWarning] ++
       (if s.threadJoinable then [.detachListener] else []) ++
       [.drainPool],
     { s with stopRequested := true, dbPool := [], threadJoinable := false })


/-- A concrete running state used by the closed counterexamples and
witnesses below. -/
def runningServer : ServerState :=
  { isRunning := true, stopRequested := false, dbPool := [0, 1],
    threadJoinable := true }

/-- A concrete stopped state (running flag down). -/
def stoppedServer : ServerState :=
  { isRunning := false, stopRequested := true, dbPool := [4, 5],
    threadJoinable := false }

/-- C1 counterexample: on the confirmed-exit path from a running state, the
stop trace joins the listener and then drains the pool, but contains no
Worker Pool `shutdown()` action at all — so the claimed ordering
join-listener, then worker shutdown, then drain does not hold. -/
theorem stop_no_worker_shutdown_cex :
    (stop true runningServer).1 =
      [.setStopRequested, .listenerStop, .waitForListener, .joinListener,
       .logStopped, .drainPool] ∧
    ServerEvent.workerShutdown ∉ (stop true runningServer).1 := by
  constructor
  · rfl
  · decide

/-- C1 (amended): after the listener confirms exit, the controller joins the
listener's thread and then immediately drains the Database Lease Pool; no
Worker Pool `shutdown()` is ever requested by `stop`, so the drain is not
protected by any barrier against workers still executing Work Items (drain
discards idle handles only, which is the only reason no checked-out handle
is discarded). -/
theorem stop_join_then_drain_amended (s : ServerState)
    (hrun : s.isRunning = true) (hjoin : s.threadJoinable = true) :
    (stop true s).1 =
      [.setStopRequested, .listenerStop, .waitForListener, .joinListener,
       .logStopped, .drainPool] ∧
    ServerEvent.workerShutdown ∉ (stop true s).1 ∧
    (stop true s).1.indexOf .joinListener <
      (stop true s).1.indexOf .drainPool := by
  cases s with
  | mk ir sr db tj =>
      cases hrun
      cases hjoin
      have htr : (stop true (ServerState.mk true sr db true)).1 =
          [.setStopRequested, .listenerStop, .waitForListener, .joinListener,
           .logStopped, .drainPool] := rfl
      rw [htr]
      refine ⟨rfl, ?_, ?_⟩ <;> decide

/-- C1 witness: the amended stop-ordering statement evaluated on a concrete
running state. -/
theorem stop_join_then_drain_amended_witness :
    (stop true runningServer).1 =
      [.setStopRequested, .listenerStop, .waitForListener, .joinListener,
       .logStopped, .drainPool] ∧
    ServerEvent.workerShutdown ∉ (stop true runningServer).1 ∧
    (stop true runningServer).1.indexOf .joinListener <
      (stop true runningServer).1.indexOf .drainPool :=
  stop_join_then_drain_amended runningServer rfl rfl

/-- C3 counterexample: when the listener never confirms exit, `stop` does
log the timeout warning, but the final state still has the running flag set
(only the listener thread ever clears `isRunning`), so the service does not
end in the Stopped state as claimed. -/
theorem stop_timeout_still_running_cex :
    is_running (stop false runningServer).2 = true ∧
    ServerEvent.logTimeoutWarning ∈ (stop false runningServer).1 := by
  constructor
  · rfl
  · decide

/-- C3 (amended): if `stop()` is called while running and the listener never
confirms exit within the 5-second window, `stop` still returns (the wait is
bounded; the timeout path is a total branch of the model), reports the
timeout as a logged warning rather than an exception, detaches the listener
thread and drains the database pool; but the running flag remains set — the
final state is stop-requested-but-still-running (draining), not Stopped,
until the detached listener itself clears the flag. -/
theorem stop_timeout_behavior_amended (s : ServerState)
    (hrun : s.isRunning = true) (hjoin : s.threadJoinable = true) :
    (stop false s).1 =
      [.setStopRequested, .listenerStop, .waitForListener,
       .logTimeoutWarning, .detachListener, .drainPool] ∧
    (stop false s).2 =
      { isRunning := true, stopRequested := true, dbPool := [],
        threadJoinable := false } := by
  cases s with
  | mk ir sr db tj =>
      cases hrun
      cases hjoin
      exact ⟨rfl, rfl⟩

/-- C3 witness: the amended timeout behavior evaluated on a concrete running
state. -/
theorem stop_timeout_behavior_amended_witness :
    (stop false runningServer).1 =
      [.setStopRequested, .listenerStop, .waitForListener,
       .logTimeoutWarning, .detachListener, .drainPool] ∧
    (stop false runningServer).2 =
      { isRunning := true, stopRequested := true, dbPool := [],
        threadJoinable := false } :=
  stop_timeout_behavior_amended runningServer rfl rfl

/-- C7: calling `start` while already running logs the conflict and returns
the state completely unchanged; in particular no second listener thread is
spawned. -/
theorem start_double_noop (s : ServerState) (hrun : s.isRunning = true) :
    start s = ([.logAlreadyRunning], s) ∧
    ServerEvent.spawnListener ∉ (start s).1 := by
  cases s with
  | mk ir sr db tj =>
      cases hrun
      have htr : (start (ServerState.mk true sr db tj)).1 =
          [.logAlreadyRunning] := rfl
      rw [htr]
      exact ⟨rfl, by decide⟩

/-- C7 witness: the double-start statement evaluated on a concrete running
state. -/
theorem start_double_noop_witness :
    start runningServer = ([.logAlreadyRunning], runningServer) ∧
    ServerEvent.spawnListener ∉ (start runningServer).1 :=
  start_double_noop runningServer rfl

/-- C8: calling `stop` when the running flag is down (NotStarted or already
Stopped) only logs and returns the state unchanged — running flag,
stop-requested flag and database pool contents are all preserved, whether or
not the listener would have confirmed. -/
theorem stop_idempotent_when_not_running (c : Bool) (s : ServerState)
    (hrun : s.isRunning = false) :
    stop c s = ([.logAlreadyStopped], s) := by
  simp [stop, hrun]

/-- C8 witness: the idempotence statement evaluated on a concrete stopped
state, for both outcomes of the (never reached) listener wait. -/
theorem stop_idempotent_when_not_running_witness :
    stop true stoppedServer = ([.logAlreadyStopped], stoppedServer) ∧
    stop false stoppedServer = ([.logAlreadyStopped], stoppedServer) :=
  ⟨stop_idempotent_when_not_running true stoppedServer rfl,
   stop_idempotent_when_not_running false stoppedServer rfl⟩

/-! ## Lock discipline of the pool operations

The scope of the `std::lock_guard<std::mutex> lock(dbPoolMutex)` in
`acquire_db_handler` and `release_db_handler` (`rest_server.cpp` lines
168-184), made explicit as a step trace.  In `acquire_db_handler` the guard
is constructed at function entry and destroyed at function exit, so when the
pool is empty the `return create_db_handler();` — which constructs a
`DatabaseHandler` — runs strictly between the lock and the unlock. -/

/-- Primitive steps of the pool operations.  `constructHandle` is the
`std::make_unique<DatabaseHandler>(dbConfig[0])` inside `create_db_handler`;
per the spec a Database Handle owns one live connection, so constructing one
is a blocking database operation (the `DatabaseHandler` constructor itself
is not among the source files).  `dbQuery` is the blocking
query/execute call a work item performs on the handle it holds. -/
inductive DbStep where
  | lockPool
  | unlockPool
  | popIdle
  | pushIdle
  | constructHandle
  | dbQuery
  deriving Repr, DecidableEq

/-- Step trace of `acquire_db_handler`, by whether `dbPool.empty()` holds:
lock; then either `create_db_handler()` (empty) or front/pop (non-empty);
unlock at scope exit. -/
def acquireSteps (idleEmpty : Bool) : List DbStep :=
  if idleEmpty then
    [.lockPool, .constructHandle, .unlockPool]
  else
    [.lockPool, .popIdle, .unlockPool]

/-- Step trace of `release_db_handler`: lock; push; unlock at scope exit. -/
def releaseSteps : List DbStep :=
  [.lockPool, .pushIdle, .unlockPool]

/-- Step trace of a database-using work item (e.g. the `/menu` handler body):
acquire a handle, run the blocking query on it, release it. -/
def workerItemSteps (idleEmpty : Bool) : List DbStep :=
  acquireSteps idleEmpty ++ [.dbQuery] ++ releaseSteps

/-- The steps of a trace executed while `dbPoolMutex` is held: a left scan
tracking the lock state. -/
def heldSteps : List DbStep -> Bool -> List DbStep
  | [], _ => []
  | DbStep.lockPool :: rest, _ => heldSteps rest true
  | DbStep.unlockPool :: rest, _ => heldSteps rest false
  | st :: rest, held => (if held then [st] else []) ++ heldSteps rest held

/-- C2 counterexample: when the idle queue is empty, `acquire_db_handler`
constructs the new `DatabaseHandler` — a live connection — while holding
`dbPoolMutex`: the construction step is among the steps executed under the
lock. -/
theorem acquire_constructs_under_lock_cex :
    DbStep.constructHandle ∈ heldSteps (acquireSteps true) false := by
  decide

/-- C2 (amended): `release_db_handler` holds the pool mutex only for the
container push, and `acquire_db_handler` holds it only for the container pop
when an idle handle exists; but when the idle queue is empty the mutex is
held across the construction of the new database handle.  The blocking
query call of a work item always runs outside the lock, on either shape of
acquire. -/
theorem pool_mutex_critical_sections_amended :
    heldSteps (acquireSteps true) false = [DbStep.constructHandle] ∧
    heldSteps (acquireSteps false) false = [DbStep.popIdle] ∧
    heldSteps releaseSteps false = [DbStep.pushIdle] ∧
    DbStep.dbQuery ∉ heldSteps (workerItemSteps true) false ∧
    DbStep.dbQuery ∉ heldSteps (workerItemSteps false) false := by
  refine ⟨rfl, rfl, rfl, ?_, ?_⟩ <;> decide

/-! ## Route dispatch

The first `setup_routes` of the longer revision (lines 186-1310): every
registered route, recorded with how its callback dispatches work.
`enqueuesWork` records whether the callback passes a closure to
`threadPool.enqueue`; `waitsForResult` records whether the callback then
blocks on `result_future.get()` for that closure; `usesDb` records
whether the dispatched work calls `acquire_db_handler`. -/

/-- How one registered route dispatches its work. -/
structure RouteSpec where
  method : String
  path : String
  enqueuesWork : Bool
  waitsForResult : Bool
  usesDb : Bool
  deriving Repr, DecidableEq

/-- The route table registered by `setup_routes`, in registration order. -/
def setup_routes : List RouteSpec :=
  [{ method := "GET", path := "/", enqueuesWork := false,
     waitsForResult := false, usesDb := false },
   { method := "GET", path := "/health", enqueuesWork := false,
     waitsForResult := false, usesDb := false },
   { method := "GET", path := "/menu", enqueuesWork := true,
     waitsForResult := false, usesDb := true },
   { method := "POST", path := "/order", enqueuesWork := true,
     waitsForResult := false, usesDb := true },
   { method := "POST", path := "/merchant/add_item", enqueuesWork := true,
     waitsForResult := false, usesDb := true },
   { method := "POST", path := "/merchant/add", enqueuesWork := true,
     waitsForResult := false, usesDb := true },
   { method := "POST", path := "/merchant/add_category", enqueuesWork := true,
     waitsForResult := false, usesDb := true },
   { method := "POST", path := "/merchant/add_dish", enqueuesWork := true,
     waitsForResult := false, usesDb := true },
   { method := "POST", path := "/user/register", enqueuesWork := true,
     waitsForResult := false, usesDb := true },
   { method := "POST", path := "/merchant/login_user", enqueuesWork := true,
     waitsForResult := false, usesDb := true },
   { method := "POST", path := "/order/create", enqueuesWork := true,
     waitsForResult := false, usesDb := true },
   { method := "POST", path := "/merchant/add_user_address",
     enqueuesWork := true, waitsForResult := false, usesDb := true },
   { method := "POST", path := "/comment/add", enqueuesWork := true,
     waitsForResult := false, usesDb := true },
   { method := "POST", path := "/admin/add_admin", enqueuesWork := true,
     waitsForResult := false, usesDb := true },
   { method := "POST", path := "/admin/login_admin", enqueuesWork := true,
     waitsForResult := false, usesDb := true },
   { method := "POST", path := "/review/create/review/create",
     enqueuesWork := true, waitsForResult := false, usesDb := true },
   { method := "GET", path := "/merchant/reviews", enqueuesWork := true,
     waitsForResult := true, usesDb := true },
   { method := "GET", path := "/merchant/dishes", enqueuesWork := true,
     waitsForResult := true, usesDb := true },
   { method := "POST", path := "/merchant/add_delivery_info",
     enqueuesWork := true, waitsForResult := false, usesDb := true },
   { method := "POST", path := "/merchant/add_payment_record",
     enqueuesWork := true, waitsForResult := false, usesDb := true },
   { method := "GET", path := "/merchants", enqueuesWork := true,
     waitsForResult := true, usesDb := true },
   { method := "GET", path := "/order/query", enqueuesWork := true,
     waitsForResult := true, usesDb := true },
   { method := "GET", path := "/dish/reviews", enqueuesWork := true,
     waitsForResult := true, usesDb := true }]

/-- Modelled from the spec: `ThreadPool::enqueue` (the thread-pool class is
declared in a header that is not among the source files).  Per the spec,
`submit(item)` appends a Work Item to the Work Queue and returns
immediately, never executing the item on the submitting thread; work items
are identified by numbers here. -/
def submit (queue : List Nat) (item : Nat) : List Nat :=
  queue ++ [item]

/-- C4 counterexample: not every registered route hands its work to the
Worker Pool with acceptance decoupled from processing — the root route
executes its body inline and enqueues nothing, and the merchant-search
route, although it enqueues its Work Item, then blocks the listener thread
on the item's future, coupling request acceptance to database latency. -/
theorem routes_not_all_decoupled_cex :
    ¬(∀ r ∈ setup_routes,
        r.enqueuesWork = true ∧ r.waitsForResult = false) := by
  decide

/-- C4 (amended): every registered route whose work touches the database
hands that work to the Worker Pool via `threadPool.enqueue` — no route runs
database work inline on the listener thread — and `submit` (modelled from
the spec) appends the item to the queue without executing it; however the
two trivial routes `/` and `/health` run inline without database work and
enqueue nothing, and exactly five routes — `/merchant/reviews`,
`/merchant/dishes`, `/merchants`, `/order/query` and `/dish/reviews` —
block the submitting thread on the enqueued item's future, so for those
routes request acceptance is not decoupled from database latency. -/
theorem db_routes_enqueue_amended (r : RouteSpec) (hr : r ∈ setup_routes)
    (hdb : r.usesDb = true) :
    r.enqueuesWork = true ∧
    (∀ q i, submit q i = q ++ [i]) ∧
    (setup_routes.filter (fun t => !t.enqueuesWork)).map (fun t => t.path) =
      ["/", "/health"] ∧
    (setup_routes.filter (fun t => t.waitsForResult)).map (fun t => t.path) =
      ["/merchant/reviews", "/merchant/dishes", "/merchants",
       "/order/query", "/dish/reviews"] := by
  refine ⟨?_, fun q i => rfl, by decide, by decide⟩
  have hall : setup_routes.all (fun t => !t.usesDb || t.enqueuesWork) = true := by
    decide
  have hthis := List.all_eq_true.mp hall r hr
  rw [hdb] at hthis
  simpa using hthis

/-- C4 witness: the amended dispatch statement evaluated at the `/menu`
route. -/
theorem db_routes_enqueue_amended_witness :
    ({ method := "GET", path := "/menu", enqueuesWork := true,
       waitsForResult := false, usesDb := true } : RouteSpec) ∈ setup_routes ∧
    ({ method := "GET", path := "/menu", enqueuesWork := true,
       waitsForResult := false, usesDb := true } : RouteSpec).enqueuesWork
      = true :=
  ⟨by decide,
   (db_routes_enqueue_amended
      { method := "GET", path := "/menu", enqueuesWork := true,
        waitsForResult := false, usesDb := true }
      (by decide) rfl).1⟩

/-! ## Identifier generators

Longer revision, lines 1323-1357: `generate_uuid` and `generate_short_id`.
Each is a function of the stream of draws its `uniform_int_distribution`
produces: `Fin 16` draws for the hexadecimal digits of the UUID, `Fin 36`
draws for the lowercase-alphanumeric alphabet of the short id. -/

/-- The alphabet of `generate_short_id`:
`"abcdefghijklmnopqrstuvwxyz0123456789"`, 36 characters. -/
def shortIdChars : List Char :=
  "abcdefghijklmnopqrstuvwxyz0123456789".toList

/-- `RestServer::generate_short_id(int length)`: the body of the
`for (int i = 0; i < length; ++i)` loop appends `chars[dist(gen)]` to
`result` and then immediately returns `result`, so the loop never reaches a
second iteration: when the guard holds at entry (`0 < length`) the function
returns a one-character string built from the first draw; when it fails
(`length <= 0`) control falls off the end of the non-void function without
returning a value, modelled as `none`. -/
def generate_short_id (length : Int) (dist : Nat -> Fin 36) : Option String :=
  if 0 < length then
    some (String.mk [shortIdChars.getD (dist 0).val ' '])
  else
    none

/-- C9: for every requested length at least 1, `generate_short_id` returns a
string of exactly one character drawn from the lowercase-alphanumeric
alphabet — the function returns from inside the first loop iteration
regardless of the length argument — and for length at most 0 the loop is
never entered and the function produces no value. -/
theorem generate_short_id_spec (length : Int) (dist : Nat -> Fin 36) :
    (1 <= length ->
      ∃ c, generate_short_id length dist = some (String.mk [c]) ∧
        c ∈ shortIdChars) ∧
    (length <= 0 -> generate_short_id length dist = none) := by
  have hmem : ∀ v : Fin 36, shortIdChars.getD v.val ' ' ∈ shortIdChars := by
    decide
  constructor
  · intro hlen
    refine ⟨shortIdChars.getD (dist 0).val ' ', ?_, hmem (dist 0)⟩
    simp only [generate_short_id, if_pos (show (0 : Int) < length by omega)]
  · intro hlen
    simp only [generate_short_id, if_neg (show ¬(0 : Int) < length by omega)]

/-- C9 witness: the short-id statement at length 1 (one character from the
alphabet) and at length 0 (no value), with a concrete draw stream. -/
theorem generate_short_id_spec_witness :
    (∃ c, generate_short_id 1 (fun _ => 0) = some (String.mk [c]) ∧
      c ∈ shortIdChars) ∧
    generate_short_id 0 (fun _ => 0) = none :=
  ⟨(generate_short_id_spec 1 (fun _ => 0)).1 (by omega),
   (generate_short_id_spec 0 (fun _ => 0)).2 (by omega)⟩

/-- The hexadecimal alphabet of `generate_uuid`: `"0123456789abcdef"`. -/
def hexChars : List Char :=
  "0123456789abcdef".toList

/-- The group sizes of `generate_uuid`:
`std::vector<int> uuid_format = {8, 4, 4, 4, 12}`. -/
def uuid_format : List Nat :=
  [8, 4, 4, 4, 12]

/-- The inner loop of `generate_uuid`: `n` consecutive draws starting at
position `off` of the draw stream, each mapped through `hex[...]`. -/
def hexRun (dis : Nat -> Fin 16) (off n : Nat) : List Char :=
  (List.range n).map (fun j => hexChars.getD (dis (off + j)).val ' ')

/-- The outer loop of `generate_uuid`: one hex group per entry of the format
vector, with `"-"` appended after every group but the last. -/
def uuid_build (dis : Nat -> Fin 16) : List Nat -> Nat -> List Char
  | [], _ => []
  | [n], off => hexRun dis off n
  | n :: rest, off => hexRun dis off n ++ '-' :: uuid_build dis rest (off + n)

/-- `RestServer::generate_uuid`: the two nested loops over `uuid_format`,
driven by the stream of `uniform_int_distribution<>(0, 15)` draws. -/
def generate_uuid (dis : Nat -> Fin 16) : String :=
  String.mk (uuid_build dis uuid_format 0)

/-- C10: every string `generate_uuid` returns has length exactly 36 and the
canonical UUID shape: five groups of lowercase hexadecimal digits of sizes
8, 4, 4, 4 and 12, separated by four dash characters. -/
theorem generate_uuid_shape (dis : Nat -> Fin 16) :
    (generate_uuid dis).length = 36 ∧
    ∃ a b c d e : List Char,
      (generate_uuid dis).toList =
        a ++ '-' :: (b ++ '-' :: (c ++ '-' :: (d ++ '-' :: e))) ∧
      a.length = 8 ∧ b.length = 4 ∧ c.length = 4 ∧ d.length = 4 ∧
      e.length = 12 ∧
      ∀ ch, (ch ∈ a ∨ ch ∈ b ∨ ch ∈ c ∨ ch ∈ d ∨ ch ∈ e) ->
        ch ∈ hexChars := by
  have hbuild : uuid_build dis uuid_format 0 =
      hexRun dis 0 8 ++ '-' :: (hexRun dis 8 4 ++ '-' ::
        (hexRun dis 12 4 ++ '-' :: (hexRun dis 16 4 ++ '-' ::
          hexRun dis 20 12))) := rfl
  have hlen : ∀ off n, (hexRun dis off n).length = n := by
    intro off n
    simp [hexRun]
  have hmem : ∀ off n ch, ch ∈ hexRun dis off n -> ch ∈ hexChars := by
    intro off n ch hch
    have hall : ∀ v : Fin 16, hexChars.getD v.val ' ' ∈ hexChars := by
      decide
    simp only [hexRun, List.mem_map] at hch
    obtain ⟨j, _, rfl⟩ := hch
    exact hall (dis (off + j))
  constructor
  · show (uuid_build dis uuid_format 0).length = 36
    rw [hbuild]
    simp [hlen]
  · refine ⟨hexRun dis 0 8, hexRun dis 8 4, hexRun dis 12 4,
      hexRun dis 16 4, hexRun dis 20 12, ?_, hlen 0 8, hlen 8 4,
      hlen 12 4, hlen 16 4, hlen 20 12, ?_⟩
    · show uuid_build dis uuid_format 0 = _
      exact hbuild
    · intro ch hch
      rcases hch with h | h | h | h | h
      · exact hmem 0 8 ch h
      · exact hmem 8 4 ch h
      · exact hmem 12 4 ch h
      · exact hmem 16 4 ch h
      · exact hmem 20 12 ch h

end TakeAwayPlatform
